import Mathlib

/-
Verification of the msread mass-spectrometry reading library.

The Python sources are shallowly embedded: Python floats become rationals
(no claim depends on floating-point rounding), Python ints become integers,
optional values (None) become Option, and raised exceptions become Except
with an explicit error type.  Scan-number and byte containers are plain
lists.
-/

namespace Msread

/-- Spectrum kinds: the constants msread.CENTROIDS and msread.PROFILE
(module constants imported from msread.constants). -/
inductive SpectrumType where
  | centroids
  | profile
deriving DecidableEq, Repr

/-- Python exceptions raised by the embedded code paths.  The diverge
marker stands for a while-loop that runs forever (fuel exhausted in the
embedding); recursionError is the RecursionError CPython raises when a
recursive call chain exceeds the recursion limit. -/
inductive PyErr where
  | typeError
  | valueError
  | indexError
  | structError
  | zlibError
  | recursionError
  | diverge
deriving DecidableEq, Repr

/-- Centroid (msread/centroid.py).  The stored fields of Centroid.__init__:
mz, ai, base (default 0), noise, area, fwhm, charge, custom_data.  The
free-form custom payload (type "?" in the source) is modelled as Option Nat. -/
structure Centroid where
  mz : ℚ
  ai : ℚ
  base : ℚ := 0
  noise : Option ℚ := none
  area : Option ℚ := none
  fwhm : Option ℚ := none
  charge : Option ℤ := none
  custom_data : Option ℕ := none
deriving DecidableEq, Repr

/-- Centroid.intensity: baseline-corrected intensity, ai - base. -/
def Centroid.intensity (c : Centroid) : ℚ :=
  c.ai - c.base

/-- Centroid.sn: `if not self.noise: return None; return (ai - base) / noise`.
Python falsiness of a float-or-None: None and 0.0 are falsy. -/
def Centroid.sn (c : Centroid) : Option ℚ :=
  match c.noise with
  | none => none
  | some n => if n = 0 then none else some ((c.ai - c.base) / n)

/-- Centroid.__eq__: structural equality over the stored fields mz, ai,
base, noise, area, fwhm and charge.  The custom_data field never takes
part (the identity shortcut `self is other` implies field equality). -/
def Centroid.ceq (a b : Centroid) : Bool :=
  decide (a.mz = b.mz) && decide (a.ai = b.ai) && decide (a.base = b.base)
    && decide (a.noise = b.noise) && decide (a.area = b.area)
    && decide (a.fwhm = b.fwhm) && decide (a.charge = b.charge)

/-- An item accepted by Masslist._parse_centroid: either a Centroid or a
pair of floats.  Any other Python value raises TypeError before insertion,
so it is excluded by the type. -/
def CentroidItem : Type := Centroid ⊕ (ℚ × ℚ)

/-- Masslist._parse_centroid on the valid inputs: a Centroid is kept,
a two-element pair becomes Centroid(mz=item[0], ai=item[1]). -/
def parseCentroid : CentroidItem → Centroid
  | Sum.inl c => c
  | Sum.inr (m, a) => { mz := m, ai := a }

/-- The sort key of Masslist.sort: ascending m/z. -/
def centroidMzLe (a b : Centroid) : Prop :=
  a.mz ≤ b.mz

instance centroidMzLe.decRel : DecidableRel centroidMzLe :=
  fun a b => inferInstanceAs (Decidable (a.mz ≤ b.mz))

instance centroidMzLe.total : IsTotal Centroid centroidMzLe :=
  ⟨fun a b => le_total a.mz b.mz⟩

instance centroidMzLe.trans : IsTrans Centroid centroidMzLe :=
  ⟨fun _ _ _ hab hbc => le_trans hab hbc⟩

/-- list.sort(key=lambda x: x.mz): a stable sort by m/z, modelled by a
stable structural sort under the m/z comparison. -/
def sortCentroids (l : List Centroid) : List Centroid :=
  List.insertionSort centroidMzLe l

/-- Masslist (msread/masslist.py): owned list of centroids. -/
structure Masslist where
  centroids : List Centroid
deriving Repr

/-- Masslist.__init__: start from []; when the argument collection is
non-empty, parse every item and sort by m/z. -/
def Masslist.init (items : List CentroidItem) : Masslist :=
  if items.isEmpty then ⟨[]⟩ else ⟨sortCentroids (items.map parseCentroid)⟩

/-- Masslist.add: parse the item, append it, then re-sort the whole list
by m/z (Masslist.sort). -/
def Masslist.add (m : Masslist) (item : CentroidItem) : Masslist :=
  ⟨sortCentroids (m.centroids ++ [parseCentroid item])⟩

/-- Scan (msread/scan.py): one spectrum, aggregating header metadata, the
profile point rows and the centroid list.  Scan.__init__ wraps the given
centroid collection into a Masslist, which sorts it by m/z.  The header
type is a parameter because each reader feeds its own raw record; no claim
reads header fields that are not kept in those records. -/
structure Scan (H : Type) where
  header : H
  profile : List (List ℚ)
  centroids : List Centroid
deriving Repr

variable {H : Type}

/-- Scan construction: profile rows are stored unchanged, centroids go
through Masslist (sorted by m/z). -/
def mkScan (h : H) (profile : List (List ℚ)) (centroids : List Centroid) : Scan H :=
  ⟨h, profile, sortCentroids centroids⟩

/-- Scan.has_profile: non-emptiness of the profile buffer. -/
def Scan.has_profile (s : Scan H) : Bool :=
  !s.profile.isEmpty

/-- Scan.has_centroids: non-emptiness of the centroid list. -/
def Scan.has_centroids (s : Scan H) : Bool :=
  !s.centroids.isEmpty

/- ----------------------------------------------------------------------
Peak codec helpers (the binary machinery shared by the XML readers).
Byte blocks are modelled after the base64 text envelope has been removed
(base64.b64decode is a bijection between the text and the byte payload,
and the spec defines the codec input as the byte blocks already stripped
of any text envelope).  An IEEE float of a given width is abstracted as
the integer value of its byte chunk in the declared byte order: no claim
depends on float arithmetic, only on widths, counts and zero tests, which
the bit pattern preserves.
---------------------------------------------------------------------- -/

/-- Little-endian integer value of a byte chunk. -/
def bytesToNatLE : List ℕ → ℕ
  | [] => 0
  | b :: rest => b + 256 * bytesToNatLE rest

/-- Big-endian (network order) integer value of a byte chunk. -/
def bytesToNatBE (l : List ℕ) : ℕ :=
  bytesToNatLE l.reverse

/-- Split a byte list into consecutive chunks of k bytes; a final short
chunk is kept as is (struct.unpack rejects it beforehand).  The fuel
argument (one unit per chunk, initialised to the list length, which
always suffices) keeps the recursion structural. -/
def chunksOfF (k : ℕ) : ℕ → List ℕ → List (List ℕ)
  | 0, _ => []
  | _ + 1, [] => []
  | f + 1, a :: rest =>
    match k with
    | 0 => [] :: chunksOfF 0 f (a :: rest)
    | k' + 1 => (a :: rest.take k') :: chunksOfF (k' + 1) f (rest.drop k')

/-- Split a byte list into consecutive chunks of k bytes. -/
def chunksOf (k : ℕ) (l : List ℕ) : List (List ℕ) :=
  chunksOfF k l.length l

/-- struct.unpack(order + fmt * count, data) with count = len(data) // size:
the buffer must hold exactly count * size bytes, i.e. len % size == 0,
otherwise struct.error is raised; each size-byte chunk becomes one value. -/
def structUnpack (toVal : List ℕ → ℕ) (size : ℕ) (bs : List ℕ) : Except PyErr (List ℚ) :=
  if bs.length % size = 0 then
    .ok ((chunksOf size bs).map fun c => ((toVal c : ℕ) : ℚ))
  else
    .error .structError

/-- Float width selection of the readers: `precision = "f"` (4 bytes)
unless the declared precision equals 64, then `"d"` (8 bytes).  Any other
declared value, 16 included, silently falls back to the 32-bit width. -/
def precisionSize (p : Option ℤ) : ℕ :=
  if p = some 64 then 8 else 4

/-- The zlib library (not part of this repository), abstracted: decompress either yields the
inflated bytes or fails (zlib.error). -/
structure ZlibOracle where
  decompress : List ℕ → Option (List ℕ)

/-- The conditional decompression `if compression == "zlib": data =
zlib.decompress(data)`; a failed
decompression propagates as an exception. -/
def decompressIf (zl : ZlibOracle) (isZlib : Bool) (bs : List ℕ) : Except PyErr (List ℕ) :=
  if isZlib then
    match zl.decompress bs with
    | some out => .ok out
    | none => .error .zlibError
  else
    .ok bs

/-- Python zip of three sequences into 3-element rows, truncating at the
shortest input. -/
def zipTriples : List ℚ → List ℚ → List ℚ → List (List ℚ)
  | a :: as, b :: bs, c :: cs => [a, b, c] :: zipTriples as bs cs
  | _, _, _ => []

/-- Python zip of two sequences into 2-element rows, truncating at the
shortest input. -/
def zipPairs : List ℚ → List ℚ → List (List ℚ)
  | a :: as, b :: bs => [a, b] :: zipPairs as bs
  | _, _ => []

/-- data[::2] and data[1::2]: the even-index and odd-index subsequences. -/
def altSplit : List ℚ → List ℚ × List ℚ
  | [] => ([], [])
  | a :: rest =>
    let (e, o) := altSplit rest
    (a :: o, e)

/-- numpy reshape(-1, 2) of a flat interleaved array into rows of two;
only applied after the even-length check. -/
def pairRows : List ℚ → List (List ℚ)
  | a :: b :: rest => [a, b] :: pairRows rest
  | _ => []

/-- Truthiness of an optional byte payload: None and the empty block are
falsy (`if not scan_data[...]`). -/
def pyFalsyBytes : Option (List ℕ) → Bool
  | none => true
  | some [] => true
  | some (_ :: _) => false

/- ----------------------------------------------------------------------
MZMLReader (msread/mzml_reader.py).
The scan_data template keeps the fields that the verified operations
read; the remaining ScanHeader metadata fields (instrument, basepeak,
precursor window, ...) are populated and copied verbatim by the source
and no claim depends on them.  The compression flag stores the value of
the cvParam mapping: "zlib" or False (no compression); None while unset.
---------------------------------------------------------------------- -/

/-- Value of the compression cvParam: MS:1000574 maps to "zlib",
MS:1000576 maps to False. -/
inductive CompressionTag where
  | zlib
  | noCompression
deriving DecidableEq, Repr

/-- The mzML scan_data accumulator (MZMLReader._make_template), restricted
to the fields read by filtering, spectrum-kind selection and the decode. -/
structure MzmlScanData where
  scan_number : Option ℤ := none
  ms_level : Option ℤ := none
  spectrum_type : Option SpectrumType := none
  polarity : Option ℤ := none
  retention_time : Option ℚ := none
  mz_data : Option (List ℕ) := none
  mz_precision : Option ℤ := none
  mz_compression : Option CompressionTag := none
  int_data : Option (List ℕ) := none
  int_precision : Option ℤ := none
  int_compression : Option CompressionTag := none
  sn_data : Option (List ℕ) := none
  sn_precision : Option ℤ := none
  sn_compression : Option CompressionTag := none
deriving DecidableEq, Repr

/-- The early filters of headers()/scans(). -/
structure ScanFilters where
  min_rt : Option ℚ := none
  max_rt : Option ℚ := none
  ms_level : Option ℤ := none
  polarity : Option ℤ := none

/-- Python `value < bound` where value may be None: comparing None with a
number raises TypeError in Python 3. -/
def pyLtOpt (a : Option ℚ) (b : ℚ) : Except PyErr Bool :=
  match a with
  | none => .error .typeError
  | some x => .ok (decide (x < b))

/-- Python `value > bound` where value may be None. -/
def pyGtOpt (a : Option ℚ) (b : ℚ) : Except PyErr Bool :=
  match a with
  | none => .error .typeError
  | some x => .ok (decide (x > b))

/-- The _check_header_data filter, identical in MZMLReader, MZXMLReader and
MZDataReader: reject when retention time is below min_rt or above max_rt,
or when the MS level or polarity differs from the requested one.  The
retention-time comparisons are Python comparisons and raise TypeError
when the scan has no retention time. -/
def checkHeaderData (rt : Option ℚ) (lvl pol : Option ℤ) (f : ScanFilters) :
    Except PyErr Bool := do
  if let some m := f.min_rt then
    if ← pyLtOpt rt m then
      return false
  if let some m := f.max_rt then
    if ← pyGtOpt rt m then
      return false
  if let some l := f.ms_level then
    if lvl ≠ some l then
      return false
  if let some p := f.polarity then
    if pol ≠ some p then
      return false
  return true

/-- MZMLReader._parse_points: return [] when either required channel is
missing or empty; default the s/n text to empty; decompress each channel
under its own flag; pick each width from its own precision tag (64 means
8 bytes, anything else 4); unpack little-endian; then, for a declared
centroid spectrum, zip the three channels (an empty s/n tuple is replaced
by zeros over the m/z length), and otherwise build numpy rows of (m/z,
intensity), which requires both channels to have the same length. -/
def parsePointsMZML (zl : ZlibOracle) (sd : MzmlScanData) :
    Except PyErr (List (List ℚ)) :=
  if pyFalsyBytes sd.mz_data || pyFalsyBytes sd.int_data then .ok []
  else do
    let snRaw := sd.sn_data.getD []
    let mzB ← decompressIf zl (sd.mz_compression = some .zlib) (sd.mz_data.getD [])
    let intB ← decompressIf zl (sd.int_compression = some .zlib) (sd.int_data.getD [])
    let snB ← decompressIf zl (sd.sn_compression = some .zlib) snRaw
    let mzVals ← structUnpack bytesToNatLE (precisionSize sd.mz_precision) mzB
    let intVals ← structUnpack bytesToNatLE (precisionSize sd.int_precision) intB
    let snVals ← structUnpack bytesToNatLE (precisionSize sd.sn_precision) snB
    if sd.spectrum_type = some .centroids then
      if snVals.isEmpty then
        return zipTriples mzVals intVals (List.replicate mzVals.length 0)
      else
        return zipTriples mzVals intVals snVals
    else
      if mzVals.length = intVals.length then
        return zipPairs mzVals intVals
      else
        .error .valueError

/-- point[i] with an IndexError on a too-short row. -/
def pyIndex (l : List ℚ) (i : ℕ) : Except PyErr ℚ :=
  match l.get? i with
  | some v => .ok v
  | none => .error .indexError

/-- The centroid construction of MZMLReader._make_scan:
`noise = point[1] / point[2] if point[2] else None` then
`Centroid(mz=point[0], ai=point[1], noise=noise)`. -/
def centroidOfPointMZML (p : List ℚ) : Except PyErr Centroid := do
  let a ← pyIndex p 0
  let b ← pyIndex p 1
  let c ← pyIndex p 2
  return { mz := a, ai := b, noise := if c = 0 then none else some (b / c) }

/-- MZMLReader._make_scan: parse the points, let a document-declared
spectrum type override the caller default, then build the Scan either as
centroids or as profile.  (The ValueError branch for an unknown type is
unreachable here because the kind is a closed enumeration.) -/
def makeScanMZML (zl : ZlibOracle) (sd : MzmlScanData) (dt : SpectrumType) :
    Except PyErr (Scan MzmlScanData) := do
  let points ← parsePointsMZML zl sd
  match sd.spectrum_type.getD dt with
  | .centroids => do
    let buff ← points.mapM centroidOfPointMZML
    return mkScan sd [] buff
  | .profile => return mkScan sd points []

/-- MZMLReader.scans as a generator: one forward pass over the spectrum
elements, skipping scans that fail the early filters before any decode,
and yielding one Scan per surviving element.  An exception escaping the
body terminates the generator: the result is the list of scans the
consumer received before the failure, plus the error if one occurred.
(instrumentConfigurationList elements only fill metadata caches that no
claim reads, so the document is modelled as its spectrum elements.) -/
def mzmlScans (zl : ZlibOracle) (f : ScanFilters) (dt : SpectrumType) :
    List MzmlScanData → List (Scan MzmlScanData) × Option PyErr
  | [] => ([], none)
  | sd :: rest =>
    match checkHeaderData sd.retention_time sd.ms_level sd.polarity f with
    | .error e => ([], some e)
    | .ok false => mzmlScans zl f dt rest
    | .ok true =>
      match makeScanMZML zl sd dt with
      | .error e => ([], some e)
      | .ok s =>
        let (ss, err) := mzmlScans zl f dt rest
        (s :: ss, err)

/- ----------------------------------------------------------------------
MZXMLReader (msread/mzxml_reader.py).
The scan_data template keeps the fields the verified operations read.
Attribute values arrive pre-parsed where the source applies a pure text
conversion that no claim depends on (int(), float(), the PT..M..S
retention-time pattern); the centroided / byteOrder / compressionType
attributes are kept as strings because their comparisons drive the
control flow under verification.
---------------------------------------------------------------------- -/

/-- The mzXML scan_data accumulator (MZXMLReader._make_template),
restricted to the fields read by filtering, spectrum-kind selection and
the decode.  Note that _retrieve_header_data and _retrieve_spectrum_data
never assign spectrum_type: it stays at its template value None. -/
structure MzxmlScanData where
  scan_number : Option ℤ := none
  ms_level : Option ℤ := none
  spectrum_type : Option SpectrumType := none
  polarity : Option ℤ := none
  retention_time : Option ℚ := none
  points : Option (List ℕ) := none
  byte_order : Option String := none
  compression : Option String := none
  precision : Option ℤ := none
deriving DecidableEq, Repr

/-- The peaks child element of a scan element: its text payload (as the
bytes it base64-encodes) and its attributes.  A value is present here
exactly when `scan_elm.find("peaks")` yields an element that passes the
truthiness test of the source. -/
structure MzxmlPeaksElem where
  text : Option (List ℕ) := none
  byteOrder : Option String := none
  precisionAttr : Option ℤ := none
  compressionType : Option String := none
deriving DecidableEq, Repr

/-- A scan element with the attributes the verified operations read
(num, msLevel, polarity, retentionTime and the peaks child). -/
structure MzxmlScanElem where
  num : Option ℤ := none
  msLevel : Option ℤ := none
  polarityAttr : Option String := none
  retentionTime : Option ℚ := none
  peaks : Option MzxmlPeaksElem := none
deriving DecidableEq, Repr

/-- MZXMLReader._retrieve_spectrum_type: reads the document-level
centroided attribute of a dataProcessing element into the reader-level
self._spectrum_type buffer; value "1" declares centroid spectra, "0"
declares profile spectra, anything else leaves the kind undeclared. -/
def mzxmlRetrieveSpectrumType (attr : Option String) : Option SpectrumType :=
  match attr with
  | some s => if s = "1" then some .centroids else if s = "0" then some .profile else none
  | none => none

/-- MZXMLReader._retrieve_header_data, restricted to the retained fields:
scan number from num, MS level from msLevel (attribute default 1),
polarity from the polarity attribute, retention time from retentionTime.
The parent-scan hierarchy stack is claim-irrelevant and elided.  No
branch writes spectrum_type, mirroring the source. -/
def mzxmlRetrieveHeaderData (e : MzxmlScanElem) (sd : MzxmlScanData) : MzxmlScanData :=
  let sd := match e.num with
    | some n => { sd with scan_number := some n }
    | none => sd
  let sd := { sd with ms_level := some (e.msLevel.getD 1) }
  let sd := match e.polarityAttr with
    | some s =>
      if s = "positive" || s = "Positive" || s = "+" then { sd with polarity := some 1 }
      else if s = "negative" || s = "Negative" || s = "-" then { sd with polarity := some (-1) }
      else sd
    | none => sd
  match e.retentionTime with
  | some rt => { sd with retention_time := some rt }
  | none => sd

/-- MZXMLReader._retrieve_spectrum_data: when the peaks element is present
(and truthy), store its payload, the byte order (attribute default
network), the precision (attribute default 32) and, when declared and not
the literal "none", the compression type. -/
def mzxmlRetrieveSpectrumData (e : MzxmlScanElem) (sd : MzxmlScanData) : MzxmlScanData :=
  match e.peaks with
  | none => sd
  | some p =>
    let sd := { sd with
      points := p.text
      byte_order := some (p.byteOrder.getD "network")
      precision := some (p.precisionAttr.getD 32) }
    match p.compressionType with
    | some c => if c ≠ "none" then { sd with compression := some c } else sd
    | none => sd

/-- MZXMLReader._parse_points: return [] on a missing or empty payload;
pick the width from the precision tag (64 means 8 bytes, anything else
4); pick the byte order ("!" network order by default, little-endian only
for the literal "little"); decompress under the zlib flag; unpack; then
either de-interleave even/odd positions into centroid rows (only when
scan_data spectrum_type declares centroids, which never happens for this
reader) or reshape into numpy rows of two, which requires an even value
count. -/
def mzxmlParsePoints (zl : ZlibOracle) (sd : MzxmlScanData) :
    Except PyErr (List (List ℚ)) :=
  if pyFalsyBytes sd.points then .ok []
  else do
    let toVal := if sd.byte_order = some "little" then bytesToNatLE else bytesToNatBE
    let data ← decompressIf zl (sd.compression = some "zlib") (sd.points.getD [])
    let vals ← structUnpack toVal (precisionSize sd.precision) data
    if sd.spectrum_type = some .centroids then
      let (evens, odds) := altSplit vals
      return zipPairs evens odds
    else
      if vals.length % 2 = 0 then
        return pairRows vals
      else
        .error .valueError

/-- The centroid construction of MZXMLReader._make_scan:
`Centroid(mz=point[0], ai=point[1])`. -/
def centroidOfPointMZXML (p : List ℚ) : Except PyErr Centroid := do
  let a ← pyIndex p 0
  let b ← pyIndex p 1
  return { mz := a, ai := b }

/-- MZXMLReader._make_scan: parse the points, let scan_data spectrum_type
override the caller default when set (it never is for this reader), then
build the Scan either as centroids or as profile. -/
def makeScanMZXML (zl : ZlibOracle) (sd : MzxmlScanData) (dt : SpectrumType) :
    Except PyErr (Scan MzxmlScanData) := do
  let points ← mzxmlParsePoints zl sd
  match sd.spectrum_type.getD dt with
  | .centroids => do
    let buff ← points.mapM centroidOfPointMZXML
    return mkScan sd [] buff
  | .profile => return mkScan sd points []

/-- One parse event of the mzXML pass: a dataProcessing element carrying
the document-level centroided attribute, or a scan element. -/
inductive MzxmlItem where
  | dataProcessing (centroidedAttr : Option String)
  | scan (e : MzxmlScanElem)

/-- MZXMLReader.scans as a generator: dataProcessing elements update the
reader-level spectrum-type buffer st (self._spectrum_type); each scan
element is turned into scan_data, filtered, and emitted through
_make_scan.  The st buffer is threaded exactly as the source maintains
it: it is written by _retrieve_spectrum_type and read by nothing on the
emission path, because no code copies it into scan_data. -/
def mzxmlScans (zl : ZlibOracle) (f : ScanFilters) (dt : SpectrumType) :
    Option SpectrumType → List MzxmlItem → List (Scan MzxmlScanData) × Option PyErr
  | _, [] => ([], none)
  | _, .dataProcessing attr :: rest =>
    mzxmlScans zl f dt (mzxmlRetrieveSpectrumType attr) rest
  | st, .scan e :: rest =>
    let hd := mzxmlRetrieveHeaderData e {}
    match checkHeaderData hd.retention_time hd.ms_level hd.polarity f with
    | .error er => ([], some er)
    | .ok false => mzxmlScans zl f dt st rest
    | .ok true =>
      match makeScanMZXML zl (mzxmlRetrieveSpectrumData e hd) dt with
      | .error er => ([], some er)
      | .ok s =>
        let (ss, err) := mzxmlScans zl f dt st rest
        (s :: ss, err)

/- ----------------------------------------------------------------------
ThermoReader lineage resolver (msread/thermo_reader.py).
The vendor binding is reached only through per-scan accessor calls; each
accessor is modelled as a function of the scan number, returning None
where the underlying call can fail.  Scan numbers are Python ints.  The
per-instance cache self._master_scan_numbers maps a scan number to the
resolved parent (which may itself be None).  The recursive trailer
follow-up carries fuel: exhausting it is the RecursionError CPython
raises on a non-terminating chain.  The two scan-walking while loops also
carry fuel; exhausting those models a walk that never meets its exit
condition (the diverge marker).
---------------------------------------------------------------------- -/

/-- Module constant VALIDATE_MS_LEVEL = True. -/
def VALIDATE_MS_LEVEL : Bool := true

/-- Module constant FOLLOW_PRECURSOR = True. -/
def FOLLOW_PRECURSOR : Bool := true

/-- The abstract per-scan accessors the resolver consumes: MS level,
recorded trailer master scan number, scan event index, master scan event
index, acquisition cycle, acquisition mass range, and the
data-independent-acquisition flag taken from the instrument methods. -/
structure ThermoAccessors where
  msLevel : ℤ → Option ℤ
  trailerMasterScan : ℤ → Option ℤ
  scanEventIndex : ℤ → Option ℤ
  masterScanEventIndex : ℤ → Option ℤ
  scanCycle : ℤ → Option ℤ
  massRange : ℤ → ℚ × ℚ
  isDia : Bool

/-- The self._master_scan_numbers cache as a lookup: None when the scan
number is absent from the dictionary, otherwise the stored value. -/
def ThermoCache : Type := ℤ → Option (Option ℤ)

/-- Python truthiness of an optional int: None and 0 are falsy. -/
def pyTruthyInt : Option ℤ → Bool
  | none => false
  | some v => decide (v ≠ 0)

/-- The test `not precursor_mz or (low_mz <= precursor_mz <= high_mz)`: accept
unconditionally when the precursor m/z is unknown or zero, otherwise
require it inside the range. -/
def precursorInRange (prec : Option ℚ) (lo hi : ℚ) : Bool :=
  match prec with
  | none => true
  | some p => decide (p = 0) || (decide (lo ≤ p) && decide (p ≤ hi))

/-- ThermoReader._retrieve_parent_scan_number_by_trailer: answer from the
cache when present; otherwise read the recorded master scan number (None
when the trailer call fails), reject non-positive values, accept the
master when its MS level is set and already equals the wanted level, and
otherwise (with VALIDATE_MS_LEVEL and FOLLOW_PRECURSOR both enabled)
recurse on the master.  Fuel exhaustion is the RecursionError of a
non-terminating chain. -/
def retrieveParentByTrailer (A : ThermoAccessors) (cache : ThermoCache) :
    ℕ → ℤ → ℤ → Except PyErr (Option ℤ)
  | 0, _, _ => .error .recursionError
  | fuel + 1, s, lvl =>
    match cache s with
    | some v => .ok v
    | none =>
      match A.trailerMasterScan s with
      | none => .ok none
      | some m =>
        if m ≤ 0 then .ok none
        else if pyTruthyInt (A.msLevel m) && decide (A.msLevel m = some lvl) then
          .ok (some m)
        else if !VALIDATE_MS_LEVEL then .ok (some m)
        else if !FOLLOW_PRECURSOR then .ok none
        else retrieveParentByTrailer A cache fuel m lvl

/-- The backward walk of _retrieve_parent_scan_number_by_event_index:
step down one scan number at a time while it stays truthy; reading a
scan whose event index is absent raises TypeError (None compared against
1); once the lowest event index has been crossed, a current index above 1
ends the walk; a scan carrying the queried event index is accepted when
the precursor m/z test passes. -/
def eventIndexLoop (A : ThermoAccessors) (q : ℤ) (prec : Option ℚ) :
    ℕ → ℤ → Bool → Except PyErr (Option ℤ)
  | 0, cur, _ => if cur = 0 then .ok none else .error .diverge
  | fuel + 1, cur, lowest =>
    if cur = 0 then .ok none
    else
      match A.scanEventIndex cur with
      | none => .error .typeError
      | some v =>
        if lowest && decide (1 < v) then .ok none
        else if decide (v = q) &&
            precursorInRange prec (A.massRange cur).1 (A.massRange cur).2 then
          .ok (some cur)
        else
          eventIndexLoop A q prec fuel (cur - 1) (decide (v ≤ 1))

/-- ThermoReader._retrieve_parent_scan_number_by_event_index: cache
lookup, then the backward walk starting one scan below. -/
def retrieveParentByEventIndex (A : ThermoAccessors) (cache : ThermoCache)
    (fuel : ℕ) (s : ℤ) (q : ℤ) (prec : Option ℚ) : Except PyErr (Option ℤ) :=
  match cache s with
  | some v => .ok v
  | none => eventIndexLoop A q prec fuel (s - 1) false

/-- The walk of _retrieve_parent_scan_number_by_ms_level: step by the
given direction while the candidate stays truthy; leaving the acquisition
cycle of the queried scan ends the walk; candidates of a different MS
level are skipped; a matching-level candidate is accepted when the
precursor m/z is unknown or zero, inside the candidate mass range, or the
acquisition is data-independent. -/
def msLevelLoop (A : ThermoAccessors) (cyc : Option ℤ) (lvl : ℤ) (prec : Option ℚ)
    (dir : ℤ) : ℕ → ℤ → Except PyErr (Option ℤ)
  | 0, cand => if cand = 0 then .ok none else .error .diverge
  | fuel + 1, cand =>
    if cand = 0 then .ok none
    else if A.scanCycle cand ≠ cyc then .ok none
    else if A.msLevel cand ≠ some lvl then msLevelLoop A cyc lvl prec dir fuel (cand + dir)
    else if precursorInRange prec (A.massRange cand).1 (A.massRange cand).2 || A.isDia then
      .ok (some cand)
    else
      msLevelLoop A cyc lvl prec dir fuel (cand + dir)

/-- ThermoReader._retrieve_parent_scan_number_by_ms_level: cache lookup,
then the walk starting one step away in the given direction, within the
acquisition cycle of the queried scan. -/
def retrieveParentByMsLevel (A : ThermoAccessors) (cache : ThermoCache)
    (fuel : ℕ) (s : ℤ) (lvl : ℤ) (prec : Option ℚ) (dir : ℤ) : Except PyErr (Option ℤ) :=
  match cache s with
  | some v => .ok v
  | none => msLevelLoop A (A.scanCycle s) lvl prec dir fuel (s + dir)

/-- ThermoReader._retrieve_parent_scan_number: the cascade.  The very
first statement computes `master_ms_level = ms_level - 1` from the
scan_data value, which raises TypeError when the MS level is absent
(None minus int), before the falsy/level-below-2 guard on the next line
can return.  With a level of at least 2, try the trailer, then (when
both the scan event index and the master event index are truthy) the
event-index walk, then the nearest matching-level scan backward, then
forward; an unresolved parent is None. -/
def retrieveParentScanNumber (A : ThermoAccessors) (cache : ThermoCache)
    (fuel : ℕ) (s : ℤ) (msLvl : Option ℤ) (prec : Option ℚ) : Except PyErr (Option ℤ) :=
  match msLvl with
  | none => .error .typeError
  | some lvl =>
    if lvl = 0 || lvl < 2 then .ok none
    else
      match retrieveParentByTrailer A cache fuel s (lvl - 1) with
      | .error e => .error e
      | .ok (some m) => .ok (some m)
      | .ok none =>
        let step2 :=
          if pyTruthyInt (A.scanEventIndex s) && pyTruthyInt (A.masterScanEventIndex s) then
            retrieveParentByEventIndex A cache fuel s ((A.masterScanEventIndex s).getD 0) prec
          else
            .ok none
        match step2 with
        | .error e => .error e
        | .ok (some m) => .ok (some m)
        | .ok none =>
          match retrieveParentByMsLevel A cache fuel s (lvl - 1) prec (-1) with
          | .error e => .error e
          | .ok (some m) => .ok (some m)
          | .ok none => retrieveParentByMsLevel A cache fuel s (lvl - 1) prec 1

/-- The resolver as invoked from _retrieve_header_data: scan_data
ms_level is the template None overwritten by the accessor value when
present, i.e. exactly the accessor result. -/
def thermoResolveParent (A : ThermoAccessors) (cache : ThermoCache)
    (fuel : ℕ) (s : ℤ) (prec : Option ℚ) : Except PyErr (Option ℤ) :=
  retrieveParentScanNumber A cache fuel s (A.msLevel s) prec

/- ----------------------------------------------------------------------
Concrete fixtures used when evaluating the embedded code on explicit
inputs.
---------------------------------------------------------------------- -/

/-- A zlib behaviour on which every decompression fails (corrupt or
truncated deflate stream). -/
def zlibFail : ZlibOracle := ⟨fun _ => none⟩

/-- The empty self._master_scan_numbers cache of a fresh reader. -/
def emptyThermoCache : ThermoCache := fun _ => none

/-- Accessors for the lineage scenario of the spec: scan 10 has MS level
2, no recorded trailer master and no event indexes; scan 9 has MS level 1
and mass range [400, 1200]; both live in acquisition cycle 1. -/
def lineageDemoAccessors : ThermoAccessors where
  msLevel := fun s => if s = 10 then some 2 else if s = 9 then some 1 else none
  trailerMasterScan := fun _ => none
  scanEventIndex := fun _ => none
  masterScanEventIndex := fun _ => none
  scanCycle := fun s => if s = 9 || s = 10 then some 1 else none
  massRange := fun s => if s = 9 then (400, 1200) else (0, 0)
  isDia := false

/-- Accessors of a document whose scans carry no MS level at all: every
accessor call fails. -/
def absentLevelAccessors : ThermoAccessors where
  msLevel := fun _ => none
  trailerMasterScan := fun _ => none
  scanEventIndex := fun _ => none
  masterScanEventIndex := fun _ => none
  scanCycle := fun _ => none
  massRange := fun _ => (0, 0)
  isDia := false

/-- Accessors with a cyclic recorded trailer chain: the master of scan 10
is 11 and the master of scan 11 is 10, and neither carries the wanted
MS level 1, so the follow-precursor recursion never ends. -/
def cyclicTrailerAccessors : ThermoAccessors where
  msLevel := fun s => if s = 10 then some 2 else some 5
  trailerMasterScan := fun s => if s = 10 then some 11 else some 10
  scanEventIndex := fun _ => none
  masterScanEventIndex := fun _ => none
  scanCycle := fun _ => some 1
  massRange := fun _ => (0, 0)
  isDia := false

/-- An mzXML scan element carrying one network-order 32-bit interleaved
pair (m/z bit pattern 1, intensity bit pattern 2). -/
def demoMzxmlScanElem : MzxmlScanElem :=
  { num := some 1
    peaks := some
      { text := some [0, 0, 0, 1, 0, 0, 0, 2]
        byteOrder := some "network"
        precisionAttr := some 32 } }

/-- An mzML spectrum whose two channels are tagged with the 16-bit float
precision code (cvParam MS:1000520), each holding four bytes. -/
def demo16BitScanData : MzmlScanData :=
  { spectrum_type := some .centroids
    mz_data := some [1, 0, 0, 0]
    mz_precision := some 16
    int_data := some [2, 0, 0, 0]
    int_precision := some 16 }

/-- An mzML spectrum whose m/z channel is declared zlib-compressed but
holds an undecodable block. -/
def demoBadScanData : MzmlScanData :=
  { scan_number := some 1
    spectrum_type := some .centroids
    mz_data := some [1, 0, 0, 0]
    mz_compression := some .zlib
    int_data := some [2, 0, 0, 0] }

/-- A well-formed one-point mzML spectrum. -/
def demoGoodScanData : MzmlScanData :=
  { scan_number := some 2
    spectrum_type := some .centroids
    mz_data := some [1, 0, 0, 0]
    int_data := some [2, 0, 0, 0] }

/-- An mzML spectrum with two points per required channel but only one
value in the s/n channel. -/
def demoShortSnScanData : MzmlScanData :=
  { spectrum_type := some .centroids
    mz_data := some [1, 0, 0, 0, 2, 0, 0, 0]
    int_data := some [3, 0, 0, 0, 4, 0, 0, 0]
    sn_data := some [5, 0, 0, 0] }

/-- A declared-centroid mzML spectrum carrying the given channel
payloads, everything else at the template defaults. -/
def snChannelScanData (mzB intB snB : List ℕ) : MzmlScanData :=
  { spectrum_type := some .centroids
    mz_data := some mzB
    int_data := some intB
    sn_data := some snB }

/- ----------------------------------------------------------------------
Helper lemmas.
---------------------------------------------------------------------- -/

@[simp] theorem except_error_bind {ε α β : Type} (e : ε) (f : α → Except ε β) :
    (Except.error e >>= f : Except ε β) = Except.error e := rfl

@[simp] theorem except_ok_bind {ε α β : Type} (a : α) (f : α → Except ε β) :
    (Except.ok a >>= f : Except ε β) = f a := rfl

theorem chunksOfF_nil (k f : ℕ) : chunksOfF k f [] = [] := by
  cases f <;> rfl

theorem pyFalsyBytes_some (l : List ℕ) : pyFalsyBytes (some l) = l.isEmpty := by
  cases l <;> rfl

theorem chunksOfF_length (k : ℕ) :
    ∀ n f : ℕ, ∀ bs : List ℕ, bs.length = (k + 1) * n → n ≤ f →
      (chunksOfF (k + 1) f bs).length = n := by
  intro n
  induction n with
  | zero =>
    intro f bs h _
    have hbs : bs = [] := List.eq_nil_of_length_eq_zero (by omega)
    simp [hbs, chunksOfF_nil]
  | succ m ih =>
    intro f bs h hf
    cases bs with
    | nil =>
      exfalso
      have hpos : 0 < (k + 1) * (m + 1) := Nat.mul_pos (Nat.succ_pos k) (Nat.succ_pos m)
      simp only [List.length_nil] at h
      rw [← h] at hpos
      exact lt_irrefl 0 hpos
    | cons a rest =>
      cases f with
      | zero => omega
      | succ g =>
        have hexp : (k + 1) * (m + 1) = (k + 1) * m + (k + 1) := by ring
        have hlen : (rest.drop k).length = (k + 1) * m := by
          simp only [List.length_drop]
          simp only [List.length_cons] at h
          omega
        show ((a :: rest.take k) :: chunksOfF (k + 1) g (rest.drop k)).length = m + 1
        rw [List.length_cons, ih g (rest.drop k) hlen (by omega)]

theorem structUnpack_ok_of_length (toVal : List ℕ → ℕ) (k n : ℕ) (bs : List ℕ)
    (h : bs.length = (k + 1) * n) :
    ∃ vals : List ℚ, structUnpack toVal (k + 1) bs = .ok vals ∧ vals.length = n := by
  have hmod : bs.length % (k + 1) = 0 := by
    rw [h]; exact Nat.mul_mod_right (k + 1) n
  have hfuel : n ≤ bs.length := by
    rw [h]
    calc n = 1 * n := (Nat.one_mul n).symm
    _ ≤ (k + 1) * n := Nat.mul_le_mul_right n (by omega)
  refine ⟨(chunksOf (k + 1) bs).map (fun c => ((toVal c : ℕ) : ℚ)), ?_, ?_⟩
  · simp [structUnpack, hmod]
  · simp only [List.length_map, chunksOf]
    exact chunksOfF_length k n bs.length bs h hfuel

theorem zipTriples_length :
    ∀ as bs cs : List ℚ,
      (zipTriples as bs cs).length = min (min as.length bs.length) cs.length := by
  intro as
  induction as with
  | nil => intro bs cs; simp [zipTriples]
  | cons a as ih =>
    intro bs cs
    cases bs with
    | nil => simp [zipTriples]
    | cons b bs =>
      cases cs with
      | nil => simp [zipTriples]
      | cons c cs =>
        simp only [zipTriples, List.length_cons, ih]
        omega

theorem zipTriples_third_zero :
    ∀ as bs cs : List ℚ, (∀ c ∈ cs, c = 0) →
      ∀ p ∈ zipTriples as bs cs, ∃ x y : ℚ, p = [x, y, 0] := by
  intro as
  induction as with
  | nil => intro bs cs _ p hp; simp [zipTriples] at hp
  | cons a as ih =>
    intro bs cs hcs p hp
    cases bs with
    | nil => simp [zipTriples] at hp
    | cons b bs =>
      cases cs with
      | nil => simp [zipTriples] at hp
      | cons c cs =>
        simp only [zipTriples, List.mem_cons] at hp
        rcases hp with hp | hp
        · exact ⟨a, b, by rw [hp, hcs c (by simp)]⟩
        · exact ih bs cs (fun x hx => hcs x (by simp [hx])) p hp

theorem sortCentroids_pairwise (l : List Centroid) :
    (sortCentroids l).Pairwise (fun a b => a.mz ≤ b.mz) :=
  List.sorted_insertionSort centroidMzLe l

theorem masslist_init_pairwise (items : List CentroidItem) :
    (Masslist.init items).centroids.Pairwise (fun a b => a.mz ≤ b.mz) := by
  unfold Masslist.init
  split
  · simp
  · exact sortCentroids_pairwise _

theorem masslist_add_pairwise (m : Masslist) (item : CentroidItem) :
    (m.add item).centroids.Pairwise (fun a b => a.mz ≤ b.mz) :=
  sortCentroids_pairwise _

theorem masslist_foldl_add_pairwise (adds : List CentroidItem) :
    ∀ m : Masslist, m.centroids.Pairwise (fun a b => a.mz ≤ b.mz) →
      (adds.foldl Masslist.add m).centroids.Pairwise (fun a b => a.mz ≤ b.mz) := by
  induction adds with
  | nil => intro m hm; exact hm
  | cons a rest ih =>
    intro m _
    exact ih (m.add a) (masslist_add_pairwise m a)

/- ----------------------------------------------------------------------
Claim theorems.
---------------------------------------------------------------------- -/

/-- Claim C2: for every Masslist, after construction from any collection
and after any sequence of add calls, the stored centroid sequence is
non-decreasing by m/z. -/
theorem masslist_sorted_after_any_adds (items adds : List CentroidItem) :
    ((adds.foldl Masslist.add (Masslist.init items)).centroids).Pairwise
      (fun a b => a.mz ≤ b.mz) :=
  masslist_foldl_add_pairwise adds (Masslist.init items) (masslist_init_pairwise items)

/-- Claim C6: for every constructed Centroid, sn is absent exactly when
noise is absent or zero, and otherwise equals (ai - base) / noise. -/
theorem centroid_sn_absent_iff_no_noise (c : Centroid) :
    (c.sn = none ↔ c.noise = none ∨ c.noise = some 0) ∧
    ∀ n : ℚ, c.noise = some n → n ≠ 0 → c.sn = some ((c.ai - c.base) / n) := by
  constructor
  · cases hn : c.noise with
    | none => simp [Centroid.sn, hn]
    | some n =>
      by_cases h0 : n = 0
      · subst h0; simp [Centroid.sn, hn]
      · simp [Centroid.sn, hn, h0]
  · intro n hn h0
    simp [Centroid.sn, hn, h0]

/-- Witness for claim C6 at a concrete centroid with noise 2. -/
theorem centroid_sn_absent_iff_no_noise_witness :
    Centroid.sn { mz := 100, ai := 5, base := 1, noise := some 2 } = some 2 := by
  have h := (centroid_sn_absent_iff_no_noise
      { mz := 100, ai := 5, base := 1, noise := some 2 }).2 2 rfl (by norm_num)
  rw [h]
  norm_num

/-- Claim C9: Centroid equality compares only the stored numeric fields;
two centroids agreeing on them are equal no matter their custom payloads. -/
theorem centroid_eq_ignores_custom_payload (a b : Centroid)
    (h1 : a.mz = b.mz) (h2 : a.ai = b.ai) (h3 : a.base = b.base)
    (h4 : a.noise = b.noise) (h5 : a.area = b.area) (h6 : a.fwhm = b.fwhm)
    (h7 : a.charge = b.charge) :
    Centroid.ceq a b = true := by
  simp [Centroid.ceq, h1, h2, h3, h4, h5, h6, h7]

/-- Witness for claim C9: two centroids with different custom payloads but
equal stored fields compare equal. -/
theorem centroid_eq_ignores_custom_payload_witness :
    ({ mz := 1, ai := 2, custom_data := some 7 : Centroid }).custom_data ≠
      ({ mz := 1, ai := 2, custom_data := some 8 : Centroid }).custom_data ∧
    Centroid.ceq { mz := 1, ai := 2, custom_data := some 7 }
      { mz := 1, ai := 2, custom_data := some 8 } = true :=
  ⟨by decide,
    centroid_eq_ignores_custom_payload _ _ rfl rfl rfl rfl rfl rfl rfl⟩

/-- Claim C10: with a retention-time filter given and a scan carrying no
retention time, the header filter check raises TypeError. -/
theorem check_header_raises_on_missing_rt (lvl pol : Option ℤ) (f : ScanFilters)
    (h : f.min_rt ≠ none ∨ f.max_rt ≠ none) :
    checkHeaderData none lvl pol f = .error .typeError := by
  cases hmin : f.min_rt with
  | some m => simp [checkHeaderData, hmin, pyLtOpt]
  | none =>
    cases hmax : f.max_rt with
    | some m => simp [checkHeaderData, hmin, hmax, pyLtOpt, pyGtOpt]
    | none => simp [hmin, hmax] at h

/-- Witness for claim C10 at a concrete min_rt filter. -/
theorem check_header_raises_on_missing_rt_witness :
    checkHeaderData none none none { min_rt := some 5 } = .error .typeError :=
  check_header_raises_on_missing_rt none none { min_rt := some 5 } (by simp)

/-- Claim C8: the lineage scenario of the spec: scan 10 at MS level 2
with no trailer master and precursor 500, scan 9 at level 1 with mass
range [400, 1200] in the same cycle; the resolver returns 9 (via the
backward nearest matching-level walk). -/
theorem lineage_scenario_parent_of_10_is_9 :
    thermoResolveParent lineageDemoAccessors emptyThermoCache 20 10 (some 500)
      = .ok (some 9) := by
  rfl

/-- Claim C5: lineage resolution can raise.  With the MS level accessor
failing for the queried scan (scan_data ms_level None), the subtraction
`ms_level - 1` raises TypeError before the guard can return; and with a
cyclic recorded trailer chain, the follow-precursor recursion exceeds any
recursion depth (RecursionError), for every fuel. -/
theorem lineage_resolution_raises :
    thermoResolveParent absentLevelAccessors emptyThermoCache 20 10 (some 500)
      = .error .typeError ∧
    ∀ fuel : ℕ, thermoResolveParent cyclicTrailerAccessors emptyThermoCache fuel 10 (some 500)
      = .error .recursionError := by
  constructor
  · rfl
  · intro fuel
    have key : ∀ n : ℕ, ∀ s : ℤ, s = 10 ∨ s = 11 →
        retrieveParentByTrailer cyclicTrailerAccessors emptyThermoCache n s 1
          = .error .recursionError := by
      intro n
      induction n with
      | zero => intro s _; rfl
      | succ k ih =>
        intro s hs
        rcases hs with h | h <;> subst h
        · show retrieveParentByTrailer cyclicTrailerAccessors emptyThermoCache (k + 1) 10 1
            = .error .recursionError
          rw [retrieveParentByTrailer]
          simpa [cyclicTrailerAccessors, emptyThermoCache, pyTruthyInt,
            VALIDATE_MS_LEVEL, FOLLOW_PRECURSOR] using ih 11 (Or.inr rfl)
        · show retrieveParentByTrailer cyclicTrailerAccessors emptyThermoCache (k + 1) 11 1
            = .error .recursionError
          rw [retrieveParentByTrailer]
          simpa [cyclicTrailerAccessors, emptyThermoCache, pyTruthyInt,
            VALIDATE_MS_LEVEL, FOLLOW_PRECURSOR] using ih 10 (Or.inl rfl)
    show retrieveParentScanNumber cyclicTrailerAccessors emptyThermoCache fuel 10
        (cyclicTrailerAccessors.msLevel 10) (some 500) = .error .recursionError
    have h10 : cyclicTrailerAccessors.msLevel 10 = some 2 := rfl
    rw [h10, retrieveParentScanNumber]
    simp [key fuel 10 (Or.inl rfl)]

/-- Claim C1: the mzXML document-level kind flag never reaches the
emitted scans.  On a document declaring centroid spectra (dataProcessing
centroided attribute 1) followed by one scan with a one-pair payload,
iterating with caller default profile: the flag is recognised by
_retrieve_spectrum_type (first conjunct), yet the emitted scan is built
as profile, the caller default (second conjunct), because no code copies
self._spectrum_type into scan_data; had scan_data carried the declared
kind, the same element would have been built as centroids (third
conjunct). -/
theorem mzxml_document_kind_flag_ignored :
    mzxmlRetrieveSpectrumType (some "1") = some SpectrumType.centroids ∧
    (mzxmlScans zlibFail {} SpectrumType.profile none
        [.dataProcessing (some "1"), .scan demoMzxmlScanElem]).1.map
          (fun s => (s.profile, s.centroids.length)) = [([[1, 2]], 0)] ∧
    (makeScanMZXML zlibFail
        { mzxmlRetrieveSpectrumData demoMzxmlScanElem
            (mzxmlRetrieveHeaderData demoMzxmlScanElem {}) with
          spectrum_type := some SpectrumType.centroids }
        SpectrumType.profile).map
          (fun s => (s.profile, s.centroids.length)) = .ok ([], 1) := by
  refine ⟨rfl, by decide, rfl⟩

/-- Claim C3 counterexample: a peak block whose channels are tagged with
the 16-bit precision code decodes without any error, producing numeric
data (under the 32-bit width). -/
theorem mzml_16bit_block_decodes_without_error :
    parsePointsMZML zlibFail demo16BitScanData = .ok [[1, 2, 0]] := rfl

/-- Claim C3 (amended): a declared 16-bit float width is never rejected:
the decoder treats every declared width other than 64 as the 32-bit
width, so a 16-bit-tagged block decodes exactly as a 32-bit-tagged one. -/
theorem mzml_16bit_decoded_as_32bit (zl : ZlibOracle) (sd : MzmlScanData) :
    parsePointsMZML zl
        { sd with mz_precision := some 16, int_precision := some 16, sn_precision := some 16 }
      = parsePointsMZML zl
        { sd with mz_precision := some 32, int_precision := some 32, sn_precision := some 32 } := by
  simp [parsePointsMZML, precisionSize]

/-- Claim C4 counterexample: a document of two scans whose first scan
carries an undecodable compressed payload.  Iterating scans() yields no
scan at all and surfaces the zlib error: the healthy second scan is never
emitted, although the same scan alone is emitted fine. -/
theorem mzml_scans_abort_after_bad_payload :
    mzmlScans zlibFail {} SpectrumType.centroids [demoBadScanData, demoGoodScanData]
      = ([], some PyErr.zlibError) ∧
    (mzmlScans zlibFail {} SpectrumType.centroids [demoGoodScanData]).2 = none ∧
    (mzmlScans zlibFail {} SpectrumType.centroids [demoGoodScanData]).1.length = 1 := by
  refine ⟨rfl, rfl, rfl⟩

/-- Claim C4 (amended): a malformed peak payload does fail that one scan
decode, but the raised error escapes the scans() generator and ends the
whole iteration: scans before the failing element have been yielded,
while the failing scan and every scan after it are not emitted. -/
theorem mzml_scans_error_ends_iteration (zl : ZlibOracle) (f : ScanFilters)
    (dt : SpectrumType) (sd : MzmlScanData) (rest : List MzmlScanData) (e : PyErr)
    (hchk : checkHeaderData sd.retention_time sd.ms_level sd.polarity f = .ok true)
    (hmk : makeScanMZML zl sd dt = .error e) :
    mzmlScans zl f dt (sd :: rest) = ([], some e) := by
  simp [mzmlScans, hchk, hmk]

/-- Witness for amended claim C4 at the concrete two-scan document. -/
theorem mzml_scans_error_ends_iteration_witness :
    mzmlScans zlibFail {} SpectrumType.centroids [demoBadScanData, demoGoodScanData]
      = ([], some PyErr.zlibError) :=
  mzml_scans_error_ends_iteration zlibFail {} SpectrumType.centroids
    demoBadScanData [demoGoodScanData] PyErr.zlibError rfl rfl

/-- Claim C7 counterexample: two points in the m/z and intensity
channels, one value in the s/n channel: the decode yields a single tuple
carrying the short-channel value, not two tuples with a zero third
component. -/
theorem mzml_short_sn_channel_truncates :
    parsePointsMZML zlibFail demoShortSnScanData = .ok [[1, 3, 5]] := rfl

/-- Claim C7 (amended): with N points in each required channel, the third
channel is defaulted to zero per point, giving exactly N tuples, only
when it is absent (empty); a present-but-shorter third channel instead
truncates the zip to its own length. -/
theorem mzml_sn_default_only_when_absent (zl : ZlibOracle) (mzB intB snB : List ℕ)
    (N : ℕ) (hmz : mzB.length = 4 * N) (hint : intB.length = 4 * N)
    (hsn : snB.length % 4 = 0) :
    (snB = [] →
      ∃ pts, parsePointsMZML zl (snChannelScanData mzB intB snB) = .ok pts ∧
        pts.length = N ∧ ∀ p ∈ pts, ∃ x y : ℚ, p = [x, y, 0]) ∧
    (snB ≠ [] →
      (parsePointsMZML zl (snChannelScanData mzB intB snB)).map List.length
        = .ok (min N (snB.length / 4))) := by
  by_cases hN : N = 0
  · subst hN
    have hmzNil : mzB = [] := List.eq_nil_of_length_eq_zero (by omega)
    constructor
    · intro _
      exact ⟨[], by simp [parsePointsMZML, snChannelScanData, hmzNil, pyFalsyBytes],
        rfl, by simp⟩
    · intro _
      simp [parsePointsMZML, snChannelScanData, hmzNil, pyFalsyBytes, Except.map]
  · have hmzNe : mzB.isEmpty = false := by
      cases mzB with
      | nil => simp at hmz; omega
      | cons a rest => rfl
    have hintNe : intB.isEmpty = false := by
      cases intB with
      | nil => simp at hint; omega
      | cons a rest => rfl
    obtain ⟨mzVals, hmzU, hmzL⟩ :=
      structUnpack_ok_of_length bytesToNatLE 3 N mzB (by omega)
    obtain ⟨intVals, hintU, hintL⟩ :=
      structUnpack_ok_of_length bytesToNatLE 3 N intB (by omega)
    constructor
    · intro hsnNil
      subst hsnNil
      have hsnEmptyU : structUnpack bytesToNatLE 4 ([] : List ℕ) = .ok [] := rfl
      refine ⟨zipTriples mzVals intVals (List.replicate mzVals.length 0), ?_, ?_, ?_⟩
      · simp [parsePointsMZML, snChannelScanData, pyFalsyBytes_some, hmzNe, hintNe,
          decompressIf, precisionSize, hmzU, hintU, hsnEmptyU]
      · rw [zipTriples_length]
        simp [hmzL, hintL]
      · exact zipTriples_third_zero mzVals intVals _
          (fun c hc => List.eq_of_mem_replicate hc)
    · intro hsnNe
      have hdvd : snB.length = 4 * (snB.length / 4) := by
        have := Nat.div_mul_cancel (Nat.dvd_of_mod_eq_zero hsn)
        omega
      obtain ⟨snVals, hsnU, hsnL⟩ :=
        structUnpack_ok_of_length bytesToNatLE 3 (snB.length / 4) snB (by omega)
      have hsnValsNil : snVals ≠ [] := by
        intro hv
        rw [hv] at hsnL
        simp at hsnL
        have : snB.length = 0 := by omega
        exact absurd (List.eq_nil_of_length_eq_zero this) hsnNe
      have hout : parsePointsMZML zl (snChannelScanData mzB intB snB)
          = .ok (zipTriples mzVals intVals snVals) := by
        simp [parsePointsMZML, snChannelScanData, pyFalsyBytes_some, hmzNe, hintNe,
          decompressIf, precisionSize, hmzU, hintU, hsnU, hsnValsNil]
      rw [hout]
      simp only [Except.map, zipTriples_length, hmzL, hintL, hsnL]
      simp

/-- Witness for amended claim C7: two points per required channel and a
one-value s/n channel decode to a single tuple. -/
theorem mzml_sn_default_only_when_absent_witness :
    (parsePointsMZML zlibFail
        (snChannelScanData [1, 0, 0, 0, 2, 0, 0, 0] [3, 0, 0, 0, 4, 0, 0, 0]
          [5, 0, 0, 0])).map List.length = .ok 1 := by
  have h := (mzml_sn_default_only_when_absent zlibFail
      [1, 0, 0, 0, 2, 0, 0, 0] [3, 0, 0, 0, 4, 0, 0, 0] [5, 0, 0, 0] 2
      rfl rfl rfl).2 (by decide)
  simpa using h

end Msread
